import Mathlib

/-!
Shallow embedding of `src/display_device.cpp` (namespace `display_device`
of the Sunshine repository) together with theorems about the configuration
parser and the orchestrator's scheduling behaviour.

Strings are modelled as `List Char` (the character sequence of the C++
`std::string`).  Machine integers are modelled as `Nat` with explicit
range checks (`unsigned int` overflow surfaces as `std::out_of_range`
inside `stou`, and the `double → unsigned int` cast is modelled with an
explicit `% 2^32`).  Fallible C++ functions returning `bool` with an
output parameter are modelled as `Option`-returning functions.
-/

namespace DisplayDevice

/-- `std::numeric_limits<unsigned int>::max()` (32-bit `unsigned int`). -/
def uintMax : Nat := 2 ^ 32 - 1

/-- `DEFAULT_RETRY_INTERVAL { 5000 }`, in milliseconds. -/
def DEFAULT_RETRY_INTERVAL : Nat := 5000

/-- Whitespace as classified by `std::isspace` in the default locale
(space and the characters `\t \n \v \f \r`, codepoints 9–13), which is
what `boost::algorithm::trim_copy` strips from both ends. -/
def isSpaceChar (c : Char) : Bool :=
  c = ' ' || (9 ≤ c.toNat && c.toNat ≤ 13)

/-- `boost::algorithm::trim_copy`: strip whitespace from both ends. -/
def trim (s : List Char) : List Char :=
  ((s.dropWhile isSpaceChar).reverse.dropWhile isSpaceChar).reverse

/-- The numeric value of a digit string, as `std::stoul` reads it
(the callers below only ever hand it non-empty all-digit strings). -/
def digitsVal (s : List Char) : Nat :=
  s.foldl (fun a c => a * 10 + (c.toNat - 48)) 0

/-- `stou` (display_device.cpp lines 89–96): convert a digit string with
`std::stoul` and throw `std::out_of_range` when the value exceeds
`unsigned int`.  The throw is modelled as `none`; every caller catches it
and turns it into a parse failure. -/
def stou (s : List Char) : Option Nat :=
  if digitsVal s ≤ uintMax then some (digitsVal s) else none

/-- `Resolution` from libdisplaydevice: unsigned width × height. -/
structure Resolution where
  m_width : Nat
  m_height : Nat
deriving DecidableEq

/-- `Rational` from libdisplaydevice: unsigned numerator / denominator. -/
structure Rational where
  m_numerator : Nat
  m_denominator : Nat
deriving DecidableEq

/-- Matcher for the regex `^(\d+)x(\d+)$` used by
`parse_resolution_string`: a full match yields the two digit groups.
Since `x` is not a digit, the first group is exactly the maximal digit
prefix, so the deterministic scan below is equivalent to the regex. -/
def resolutionMatch (s : List Char) : Option (List Char × List Char) :=
  let d1 := s.takeWhile Char.isDigit
  match s.dropWhile Char.isDigit with
  | 'x' :: d2 =>
    if d1 ≠ [] ∧ d2 ≠ [] ∧ d2.all Char.isDigit then some (d1, d2) else none
  | _ => none

/-- `parse_resolution_string` (display_device.cpp lines 116–148).
`none` models returning `false` (parse error); `some none` models
returning `true` with the output left empty (blank input);
`some (some r)` models returning `true` with a parsed resolution. -/
def parse_resolution_string (input : List Char) : Option (Option Resolution) :=
  let trimmed_input := trim input
  match resolutionMatch trimmed_input with
  | some (m1, m2) =>
    match stou m1, stou m2 with
    | some w, some h => some (some ⟨w, h⟩)
    | _, _ => none
  | none =>
    if trimmed_input = [] then some none else none

/-- Matcher for the regex `^(\d+)(?:\.(\d+))?$` used by
`parse_refresh_rate_string`: a full match yields the integer digit group
and, when a decimal point is present, the fractional digit group. -/
def refreshMatch (s : List Char) : Option (List Char × Option (List Char)) :=
  let d1 := s.takeWhile Char.isDigit
  if d1 = [] then none
  else
    match s.dropWhile Char.isDigit with
    | [] => some (d1, none)
    | '.' :: d2 =>
      if d2 ≠ [] ∧ d2.all Char.isDigit then some (d1, some d2) else none
    | _ => none

/-- `boost::algorithm::trim_left_copy_if(s, is_zero)`: strip leading
zero characters. -/
def trim_left_zeros (s : List Char) : List Char :=
  s.dropWhile (fun c => c = '0')

/-- `boost::algorithm::trim_right_copy_if(s, is_zero)`: strip trailing
zero characters. -/
def trim_right_zeros (s : List Char) : List Char :=
  (s.reverse.dropWhile (fun c => c = '0')).reverse

/-- The denominator computation
`static_cast<unsigned int>(std::pow(10, n))` of
display_device.cpp line 200.  `std::pow(10, n)` is an exact `double` for
every exponent reachable while the numerator still fits `unsigned int`
(n ≤ 19), and on x86-64 the out-of-range `double → unsigned int` cast
truncates through a 64-bit register, i.e. takes the value modulo `2^32`;
in-range values are unaffected by the `%`. -/
def pow10u32 (n : Nat) : Nat :=
  10 ^ n % 2 ^ 32

/-- `parse_refresh_rate_string` (display_device.cpp lines 168–232).
Result encoding as in `parse_resolution_string`. -/
def parse_refresh_rate_string (input : List Char) : Option (Option Rational) :=
  let trimmed_input := trim input
  match refreshMatch trimmed_input with
  | some (m1, m2) =>
    let tm1 := trim_left_zeros m1
    let trimmed_match_1 := if tm1 = [] then ['0'] else tm1
    let trimmed_match_2 := match m2 with
      | some d2 => trim_right_zeros d2
      | none => []
    if trimmed_match_2 ≠ [] then
      match stou (trimmed_match_1 ++ trimmed_match_2) with
      | some numerator =>
        some (some ⟨numerator, pow10u32 trimmed_match_2.length⟩)
      | none => none
    else
      match stou trimmed_match_1 with
      | some numerator => some (some ⟨numerator, 1⟩)
      | none => none
  | none =>
    if trimmed_input = [] then some none else none

/-- `config::video_t::dd_t::config_option_e`: the device-preparation
option of the user configuration. -/
inductive config_option_e
  | disabled
  | verify_only
  | ensure_active
  | ensure_primary
  | ensure_only_display
deriving DecidableEq

/-- `config::video_t::dd_t::resolution_option_e`. -/
inductive resolution_option_e
  | disabled
  | automatic
  | manual
deriving DecidableEq

/-- `config::video_t::dd_t::refresh_rate_option_e`. -/
inductive refresh_rate_option_e
  | disabled
  | automatic
  | manual
deriving DecidableEq

/-- `config::video_t::dd_t::hdr_option_e`. -/
inductive hdr_option_e
  | disabled
  | automatic
deriving DecidableEq

/-- The `dd` sub-structure of `config::video_t` (the fields read by
display_device.cpp).  `config_revert_delay` is in milliseconds. -/
structure dd_t where
  configuration_option : config_option_e
  resolution_option : resolution_option_e
  manual_resolution : List Char
  refresh_rate_option : refresh_rate_option_e
  manual_refresh_rate : List Char
  hdr_option : hdr_option_e
  config_revert_delay : Nat
deriving DecidableEq

/-- The fields of `config::video_t` read by display_device.cpp. -/
structure video_t where
  dd : dd_t
  output_name : List Char
deriving DecidableEq

/-- The fields of `rtsp_stream::launch_session_t` read by
display_device.cpp.  `width`, `height` and `fps` are signed integers
(negative means "not provided by the client"). -/
structure launch_session_t where
  enable_sops : Bool
  width : Int
  height : Int
  fps : Int
  enable_hdr : Bool
deriving DecidableEq

/-- `SingleDisplayConfiguration::DevicePreparation` from
libdisplaydevice. -/
inductive DevicePreparation
  | VerifyOnly
  | EnsureActive
  | EnsurePrimary
  | EnsureOnlyDisplay
deriving DecidableEq

/-- `HdrState` from libdisplaydevice. -/
inductive HdrState
  | Enabled
  | Disabled
deriving DecidableEq

/-- `SingleDisplayConfiguration` from libdisplaydevice: the unit of work
scheduled against the hardware.  A default-constructed value has an empty
device id and all optionals empty. -/
structure SingleDisplayConfiguration where
  m_device_id : List Char
  m_device_prep : DevicePreparation
  m_resolution : Option Resolution
  m_refresh_rate : Option Rational
  m_hdr_state : Option HdrState
deriving DecidableEq

/-- `parse_device_prep_option` (display_device.cpp lines 245–264). -/
def parse_device_prep_option (video_config : video_t) :
    Option DevicePreparation :=
  match video_config.dd.configuration_option with
  | .verify_only => some .VerifyOnly
  | .ensure_active => some .EnsureActive
  | .ensure_primary => some .EnsurePrimary
  | .ensure_only_display => some .EnsureOnlyDisplay
  | .disabled => none

/-- `parse_resolution_option` (display_device.cpp lines 281–324).
The C++ mutates `config` and returns `bool`; modelled as
`Option SingleDisplayConfiguration` (`none` = `false`). -/
def parse_resolution_option (video_config : video_t)
    (session : launch_session_t) (config : SingleDisplayConfiguration) :
    Option SingleDisplayConfiguration :=
  match video_config.dd.resolution_option with
  | .automatic =>
    if !session.enable_sops then
      -- warning logged, resolution left unchanged
      some config
    else if session.width ≥ 0 ∧ session.height ≥ 0 then
      some { config with
        m_resolution := some ⟨session.width.toNat, session.height.toNat⟩ }
    else
      none
  | .manual =>
    if !session.enable_sops then
      -- warning logged, resolution left unchanged
      some config
    else
      match parse_resolution_string video_config.dd.manual_resolution with
      | none => none
      | some none => none  -- "Manual resolution must be specified!"
      | some (some r) => some { config with m_resolution := some r }
  | .disabled => some config

/-- `parse_refresh_rate_option` (display_device.cpp lines 341–373). -/
def parse_refresh_rate_option (video_config : video_t)
    (session : launch_session_t) (config : SingleDisplayConfiguration) :
    Option SingleDisplayConfiguration :=
  match video_config.dd.refresh_rate_option with
  | .automatic =>
    if session.fps ≥ 0 then
      some { config with m_refresh_rate := some ⟨session.fps.toNat, 1⟩ }
    else
      none
  | .manual =>
    match parse_refresh_rate_string video_config.dd.manual_refresh_rate with
    | none => none
    | some none => none  -- "Manual refresh rate must be specified!"
    | some (some r) => some { config with m_refresh_rate := some r }
  | .disabled => some config

/-- `parse_hdr_option` (display_device.cpp lines 388–400). -/
def parse_hdr_option (video_config : video_t)
    (session : launch_session_t) : Option HdrState :=
  match video_config.dd.hdr_option with
  | .automatic =>
    some (if session.enable_hdr then HdrState.Enabled else HdrState.Disabled)
  | .disabled => none

/-- The result variant
`std::variant<failed_to_parse_tag_t, configuration_disabled_tag_t,
SingleDisplayConfiguration>` of `parse_configuration`. -/
inductive parse_configuration_result
  | failed_to_parse_tag
  | configuration_disabled_tag
  | configured (config : SingleDisplayConfiguration)
deriving DecidableEq

/-- The `SingleDisplayConfiguration` built by `parse_configuration`
(display_device.cpp lines 568–571) before the resolution and refresh-rate
options are parsed into it: default-constructed, then device id, device
preparation and HDR state filled in. -/
def initial_config (video_config : video_t) (session : launch_session_t)
    (device_prep : DevicePreparation) : SingleDisplayConfiguration :=
  { m_device_id := video_config.output_name
    m_device_prep := device_prep
    m_resolution := none
    m_refresh_rate := none
    m_hdr_state := parse_hdr_option video_config session }

/-- `parse_configuration` (display_device.cpp lines 561–584). -/
def parse_configuration (video_config : video_t)
    (session : launch_session_t) : parse_configuration_result :=
  match parse_device_prep_option video_config with
  | none => .configuration_disabled_tag
  | some device_prep =>
    match parse_resolution_option video_config session
        (initial_config video_config session device_prep) with
    | none => .failed_to_parse_tag
    | some config1 =>
      match parse_refresh_rate_option video_config session config1 with
      | none => .failed_to_parse_tag
      | some config2 => .configured config2

/-- Modelled from the spec: the result set of
`SettingsManagerInterface::applySettings` is
`{Ok, ApiTemporarilyUnavailable, PermanentFailure}` (spec §6; the enum
itself lives in the external libdisplaydevice headers, not under src). -/
inductive ApplyResult
  | Ok
  | ApiTemporarilyUnavailable
  | PermanentFailure
deriving DecidableEq

/-- Modelled from the spec: `SchedulerOptions::Execution` of the external
`RetryScheduler` — `Immediate` runs the operation once synchronously in
the calling thread before entering the timer loop (the default, per the
source comment at display_device.cpp line 443), `ScheduledOnly` waits out
the first sleep duration before any execution. -/
inductive Execution
  | Immediate
  | ScheduledOnly
deriving DecidableEq

/-- Modelled from the spec: `SchedulerOptions` of the external
`RetryScheduler`.  `m_sleep_durations` (milliseconds) are the waits
between attempts; the last entry repeats for all later attempts. -/
structure SchedulerOptions where
  m_sleep_durations : List Nat
  m_execution : Execution
deriving DecidableEq

/-- Modelled from the spec: the delay before the first attempt of a
scheduled operation — zero in `Immediate` mode, the first sleep duration
in `ScheduledOnly` mode. -/
def firstAttemptDelay (o : SchedulerOptions) : Nat :=
  match o.m_execution with
  | .Immediate => 0
  | .ScheduledOnly => o.m_sleep_durations.headD 0

/-- Modelled from the spec: the fixed interval separating attempts after
the first — the last sleep duration, which repeats. -/
def subsequentInterval (o : SchedulerOptions) : Nat :=
  o.m_sleep_durations.getLastD 0

/-- Modelled from the spec: the cooperative retry loop of the external
`RetryScheduler`.  An attempt function receives the outcome the resource
produces on that run and returns whether it requests stop; given the
stream of per-run outcomes, `attemptTrace` records one stop decision per
executed attempt, ending the loop at the first stop request. -/
def attemptTrace (attempt : α → Bool) : List α → List Bool
  | [] => []
  | r :: rs =>
    if attempt r then [true] else false :: attemptTrace attempt rs

/-- `revert_option_e` (display_device.cpp lines 426–430). -/
inductive revert_option_e
  | try_once
  | try_indefinitely
  | try_indefinitely_with_delay
deriving DecidableEq

/-- The `SchedulerOptions` value built by `revert_configuration_unlocked`
(display_device.cpp lines 443–448) from the revert option and the stored
`DD_DATA.config_revert_delay`. -/
def revert_scheduler_options (option : revert_option_e)
    (config_revert_delay : Nat) : SchedulerOptions :=
  if option = .try_indefinitely_with_delay ∧ config_revert_delay > 0 then
    { m_sleep_durations := [config_revert_delay, DEFAULT_RETRY_INTERVAL]
      m_execution := .ScheduledOnly }
  else
    { m_sleep_durations := [DEFAULT_RETRY_INTERVAL]
      m_execution := .Immediate }

/-- The stop decision of the lambda scheduled by
`revert_configuration_unlocked` (display_device.cpp lines 450–455):
request stop when `revertSettings()` succeeded or the captured
`try_once = (option == revert_option_e::try_once)` flag is set. -/
def revert_attempt (option : revert_option_e) (revert_success : Bool) :
    Bool :=
  revert_success || decide (option = .try_once)

/-- The stop decision of the lambda scheduled by
`configure_display(config)` (display_device.cpp lines 529–535): request
stop unless `applySettings` reported `ApiTemporarilyUnavailable`. -/
def configure_display_attempt (result : ApplyResult) : Bool :=
  match result with
  | .ApiTemporarilyUnavailable => false
  | _ => true

/-- The mutable fields of the global `DD_DATA` (display_device.cpp lines
37–41); the mutex is left implicit (every modelled operation below is one
critical section) and the scheduler handle is abstracted to its
presence. -/
structure DDData where
  config_revert_delay : Nat
  sm_instance : Option Unit
deriving DecidableEq

/-- The observable operations a critical section of display_device.cpp
performs, in program order: scheduling a revert (with its option and the
scheduler options built for it), recording the revert delay, discarding
the scheduler handle, constructing a settings manager, enumerating
devices, scheduling an apply. -/
inductive Op
  | scheduleRevert (option : revert_option_e) (opts : SchedulerOptions)
  | setDelay (d : Nat)
  | discardScheduler
  | constructManager (ok : Bool)
  | enumerateDevices
  | scheduleApply (config : SingleDisplayConfiguration)
deriving DecidableEq

/-- `revert_configuration_unlocked` (display_device.cpp lines 436–457):
a no-op when the platform is unsupported, otherwise schedules one revert
operation with options derived from the stored revert delay. -/
def revert_configuration_unlocked (option : revert_option_e)
    (st : DDData) : List Op :=
  match st.sm_instance with
  | none => []
  | some _ =>
    [Op.scheduleRevert option
      (revert_scheduler_options option st.config_revert_delay)]

/-- `init` (display_device.cpp lines 460–491): the critical section of
the initialization, returning the operations performed in order and the
resulting state.  `supported` models whether `make_settings_manager`
returns a non-null interface. -/
def init (supported : Bool) (config_revert_delay : Nat) (st : DDData) :
    List Op × DDData :=
  let ops0 := revert_configuration_unlocked .try_once st
  let st1 : DDData := { config_revert_delay := config_revert_delay
                        sm_instance := none }
  if supported then
    let st2 : DDData := { st1 with sm_instance := some () }
    (ops0 ++ [Op.setDelay config_revert_delay, Op.discardScheduler,
        Op.constructManager true, Op.enumerateDevices] ++
      revert_configuration_unlocked .try_indefinitely st2,
     st2)
  else
    (ops0 ++ [Op.setDelay config_revert_delay, Op.discardScheduler,
        Op.constructManager false],
     st1)

/-- The destructor of the `deinit_t` handle returned by `init`
(display_device.cpp lines 482–489): one best-effort try-once revert, then
discard the scheduler. -/
def deinit (st : DDData) : List Op × DDData :=
  (revert_configuration_unlocked .try_once st,
   { st with sm_instance := none })

/-- `configure_display(config)` (display_device.cpp lines 521–537):
a no-op when unsupported, otherwise schedules one apply operation. -/
def configure_display_config (config : SingleDisplayConfiguration)
    (st : DDData) : List Op :=
  match st.sm_instance with
  | none => []
  | some _ => [Op.scheduleApply config]

/-- `revert_configuration` (display_device.cpp lines 539–543). -/
def revert_configuration (st : DDData) : List Op :=
  revert_configuration_unlocked .try_indefinitely_with_delay st

/-- `configure_display(video_config, session)` (display_device.cpp lines
504–519): dispatch on the parse outcome — apply on success, revert on
disabled, nothing on parse failure. -/
def configure_display (video_config : video_t)
    (session : launch_session_t) (st : DDData) : List Op :=
  match parse_configuration video_config session with
  | .configured parsed_config => configure_display_config parsed_config st
  | .configuration_disabled_tag => revert_configuration st
  | .failed_to_parse_tag => []

/-- The declarative reading of the regex `^(\d+)x(\d+)$`: the string is
two non-empty digit groups separated by a literal `x`. -/
def resPattern (s d1 d2 : List Char) : Prop :=
  s = d1 ++ 'x' :: d2 ∧ d1 ≠ [] ∧ d2 ≠ [] ∧
    (∀ c ∈ d1, c.isDigit = true) ∧ (∀ c ∈ d2, c.isDigit = true)

/-! ## Helper lemmas about the regex matchers -/

theorem takeWhile_append_sep (p : Char → Bool) (d1 : List Char) (c : Char)
    (r : List Char) (h1 : ∀ x ∈ d1, p x = true) (hc : p c = false) :
    (d1 ++ c :: r).takeWhile p = d1 := by
  induction d1 with
  | nil => simp [List.takeWhile_cons, hc]
  | cons a d ih =>
    have ha : p a = true := h1 a (by simp)
    simp only [List.cons_append, List.takeWhile_cons, ha, if_true]
    rw [ih (fun x hx => h1 x (by simp [hx]))]

theorem dropWhile_append_sep (p : Char → Bool) (d1 : List Char) (c : Char)
    (r : List Char) (h1 : ∀ x ∈ d1, p x = true) (hc : p c = false) :
    (d1 ++ c :: r).dropWhile p = c :: r := by
  induction d1 with
  | nil => simp [List.dropWhile_cons, hc]
  | cons a d ih =>
    have ha : p a = true := h1 a (by simp)
    simp only [List.cons_append, List.dropWhile_cons, ha, if_true]
    exact ih (fun x hx => h1 x (by simp [hx]))

theorem takeWhile_all_eq (p : Char → Bool) (l : List Char)
    (h : ∀ x ∈ l, p x = true) : l.takeWhile p = l := by
  induction l with
  | nil => rfl
  | cons a d ih =>
    have ha : p a = true := h a (by simp)
    simp only [List.takeWhile_cons, ha, if_true]
    rw [ih (fun x hx => h x (by simp [hx]))]

theorem dropWhile_all_eq (p : Char → Bool) (l : List Char)
    (h : ∀ x ∈ l, p x = true) : l.dropWhile p = [] := by
  induction l with
  | nil => rfl
  | cons a d ih =>
    have ha : p a = true := h a (by simp)
    simp only [List.dropWhile_cons, ha, if_true]
    exact ih (fun x hx => h x (by simp [hx]))

theorem resolutionMatch_of_pattern (d1 d2 : List Char) (h1 : d1 ≠ [])
    (h2 : d2 ≠ []) (hd1 : ∀ c ∈ d1, c.isDigit = true)
    (hd2 : ∀ c ∈ d2, c.isDigit = true) :
    resolutionMatch (d1 ++ 'x' :: d2) = some (d1, d2) := by
  have hx : Char.isDigit 'x' = false := by decide
  have htake := takeWhile_append_sep Char.isDigit d1 'x' d2 hd1 hx
  have hdrop := dropWhile_append_sep Char.isDigit d1 'x' d2 hd1 hx
  simp only [resolutionMatch, htake, hdrop]
  rw [if_pos ⟨h1, h2, List.all_eq_true.mpr hd2⟩]

theorem resolutionMatch_some {s d1 d2 : List Char}
    (h : resolutionMatch s = some (d1, d2)) : resPattern s d1 d2 := by
  simp only [resolutionMatch] at h
  split at h
  case _ d2b heq =>
    split at h
    case isTrue hcond =>
      obtain ⟨he1, he2⟩ : s.takeWhile Char.isDigit = d1 ∧ d2b = d2 := by
        constructor <;> injection h with h12 <;>
          simp_all
      refine ⟨?_, ?_, ?_, ?_, ?_⟩
      · conv_lhs =>
          rw [← List.takeWhile_append_dropWhile (p := Char.isDigit) (l := s)]
        rw [heq, he1, he2]
      · exact he1 ▸ hcond.1
      · exact he2 ▸ hcond.2.1
      · intro c hc
        exact List.mem_takeWhile_imp (he1 ▸ hc)
      · intro c hc
        exact List.all_eq_true.mp hcond.2.2 c (he2 ▸ hc)
    case isFalse => exact absurd h (by simp)
  case _ => exact absurd h (by simp)

theorem refreshMatch_frac (d1 d2 : List Char) (h1 : d1 ≠ [])
    (hd1 : ∀ c ∈ d1, c.isDigit = true) (h2 : d2 ≠ [])
    (hd2 : ∀ c ∈ d2, c.isDigit = true) :
    refreshMatch (d1 ++ '.' :: d2) = some (d1, some d2) := by
  have hdot : Char.isDigit '.' = false := by decide
  have htake := takeWhile_append_sep Char.isDigit d1 '.' d2 hd1 hdot
  have hdrop := dropWhile_append_sep Char.isDigit d1 '.' d2 hd1 hdot
  simp only [refreshMatch, htake, hdrop]
  rw [if_neg (by simpa using h1)]
  rw [if_pos ⟨h2, List.all_eq_true.mpr hd2⟩]

theorem refreshMatch_int (d1 : List Char) (h1 : d1 ≠ [])
    (hd1 : ∀ c ∈ d1, c.isDigit = true) :
    refreshMatch d1 = some (d1, none) := by
  have htake := takeWhile_all_eq Char.isDigit d1 hd1
  have hdrop := dropWhile_all_eq Char.isDigit d1 hd1
  simp only [refreshMatch, htake, hdrop]
  rw [if_neg (by simpa using h1)]

/-! ## Claim theorems -/

/-- C1 (counterexample): on the input string "00059.9500",
`parse_refresh_rate_string` succeeds but returns `Rational{5995, 100}`,
not `Rational{59950, 100}` as the claim states ("59" and "95" remain
after zero-trimming, so the concatenated numerator is 5995); moreover on
"0.0000000001" (ten fractional digits remaining after trimming) the
returned denominator is `10^10 % 2^32 = 1410065408`, not
`10^(fractional digit count)`, because the power of ten is forced through
a 32-bit `unsigned int`. -/
theorem C1_counterexample :
    parse_refresh_rate_string "00059.9500".toList =
      some (some ⟨5995, 100⟩) ∧
    (⟨5995, 100⟩ : Rational) ≠ ⟨59950, 100⟩ ∧
    parse_refresh_rate_string "0.0000000001".toList =
      some (some ⟨1, 1410065408⟩) ∧
    (1410065408 : Nat) ≠ 10 ^ 10 := by
  refine ⟨by decide, by decide, by decide, by decide⟩

/-- C1 (amended): for the input string "00059.9500",
`parse_refresh_rate_string` succeeds and returns `Rational{5995, 100}`;
more generally, after stripping leading zeros from the integer part
(keeping at least one digit) and trailing zeros from the fractional
part, a remaining non-empty fractional part yields numerator = the
unsigned integer read from the concatenated integer+fractional digit
strings (provided it fits `unsigned int`) and denominator =
10^(fractional digit count) provided that power of ten fits `unsigned
int` (at most 9 fractional digits), so that "60" yields
`Rational{60, 1}` and "59.995" yields `Rational{59995, 1000}`. -/
theorem C1_refresh_rate_parse (input d1 d2 t1 t2 : List Char)
    (hsplit : trim input = d1 ++ '.' :: d2)
    (h1 : d1 ≠ []) (hd1 : ∀ c ∈ d1, c.isDigit = true)
    (h2 : d2 ≠ []) (hd2 : ∀ c ∈ d2, c.isDigit = true)
    (ht1 : t1 = if trim_left_zeros d1 = [] then ['0'] else
      trim_left_zeros d1)
    (ht2 : t2 = trim_right_zeros d2)
    (hfrac : t2 ≠ [])
    (hnum : digitsVal (t1 ++ t2) ≤ uintMax)
    (hden : t2.length ≤ 9) :
    parse_refresh_rate_string input =
      some (some ⟨digitsVal (t1 ++ t2), 10 ^ t2.length⟩) ∧
    parse_refresh_rate_string "60".toList = some (some ⟨60, 1⟩) ∧
    parse_refresh_rate_string "59.995".toList =
      some (some ⟨59995, 1000⟩) ∧
    parse_refresh_rate_string "00059.9500".toList =
      some (some ⟨5995, 100⟩) := by
  subst ht1 ht2
  refine ⟨?_, by decide, by decide, by decide⟩
  have hmatch : refreshMatch (trim input) = some (d1, some d2) := by
    rw [hsplit]
    exact refreshMatch_frac d1 d2 h1 hd1 h2 hd2
  have hpow : pow10u32 (trim_right_zeros d2).length =
      10 ^ (trim_right_zeros d2).length := by
    rw [pow10u32]
    refine Nat.mod_eq_of_lt (lt_of_le_of_lt
      (Nat.pow_le_pow_right (by norm_num) hden) (by norm_num))
  simp only [parse_refresh_rate_string, hmatch]
  rw [if_pos hfrac]
  rw [stou, if_pos hnum, hpow]

/-- C1 (witness): the amended theorem applied to the concrete input
"59.995". -/
theorem C1_refresh_rate_parse_witness :
    parse_refresh_rate_string "59.995".toList =
      some (some ⟨digitsVal ("59".toList ++ "995".toList),
        10 ^ ("995".toList).length⟩) :=
  (C1_refresh_rate_parse "59.995".toList "59".toList "995".toList
    "59".toList "995".toList (by decide) (by decide) (by decide)
    (by decide) (by decide) (by decide) (by decide) (by decide)
    (by decide) (by decide)).1

theorem parse_resolution_string_nil : parse_resolution_string [] = some none := by
  decide

/-- C2 (counterexample): with resolution mode "manual" and an empty
manual resolution string, `parse_configuration` does not always return
`ParseFailed`: when the session's sops ("optimize game settings") flag is
false the manual string is never parsed and the derivation succeeds, and
when device preparation is "disabled" the result is `Disabled`. -/
theorem C2_counterexample :
    parse_configuration
      { dd := { configuration_option := .verify_only
                resolution_option := .manual
                manual_resolution := []
                refresh_rate_option := .disabled
                manual_refresh_rate := []
                hdr_option := .disabled
                config_revert_delay := 0 }
        output_name := [] }
      { enable_sops := false, width := 1920, height := 1080, fps := 60,
        enable_hdr := false } ≠
      parse_configuration_result.failed_to_parse_tag ∧
    parse_configuration
      { dd := { configuration_option := .disabled
                resolution_option := .manual
                manual_resolution := []
                refresh_rate_option := .disabled
                manual_refresh_rate := []
                hdr_option := .disabled
                config_revert_delay := 0 }
        output_name := [] }
      { enable_sops := true, width := 1920, height := 1080, fps := 60,
        enable_hdr := false } ≠
      parse_configuration_result.failed_to_parse_tag := by
  refine ⟨by decide, by decide⟩

/-- C2 (amended): for every user configuration whose device-preparation
option is not "disabled", whose resolution mode is "manual" and whose
manual resolution string is empty, and for every session whose sops
("optimize game settings") flag is set, `parse_configuration` returns
`ParseFailed`: manual mode demands a value, so an empty manual
resolution value is a parse error. -/
theorem C2_manual_resolution_empty (vc : video_t) (s : launch_session_t)
    (hmode : vc.dd.resolution_option = .manual)
    (hempty : vc.dd.manual_resolution = [])
    (hprep : vc.dd.configuration_option ≠ .disabled)
    (hsops : s.enable_sops = true) :
    parse_configuration vc s = .failed_to_parse_tag := by
  obtain ⟨dp, hdp⟩ : ∃ dp, parse_device_prep_option vc = some dp := by
    unfold parse_device_prep_option
    cases h : vc.dd.configuration_option
    · exact absurd h hprep
    all_goals exact ⟨_, rfl⟩
  have hres : ∀ cfg, parse_resolution_option vc s cfg = none := by
    intro cfg
    simp [parse_resolution_option, hmode, hsops, hempty,
      parse_resolution_string_nil]
  simp [parse_configuration, hdp, hres]

/-- C2 (witness): the amended theorem applied to a concrete
configuration (device preparation "verify only", manual resolution mode,
empty manual string) and a concrete session with sops enabled. -/
theorem C2_manual_resolution_empty_witness :
    parse_configuration
      { dd := { configuration_option := .verify_only
                resolution_option := .manual
                manual_resolution := []
                refresh_rate_option := .disabled
                manual_refresh_rate := []
                hdr_option := .disabled
                config_revert_delay := 0 }
        output_name := [] }
      { enable_sops := true, width := 1920, height := 1080, fps := 60,
        enable_hdr := false } = .failed_to_parse_tag :=
  C2_manual_resolution_empty _ _ rfl rfl (by decide) rfl

/-- C3: the code, at the concrete input "0.0000000001" (whose trimmed
fractional part keeps ten digits), succeeds and returns denominator
`1410065408 = 10^10 % 2^32`, which is not a power of ten at all — the
`static_cast<unsigned int>(std::pow(10, 10))` overflows the 32-bit
range, contradicting the code's own comment ("calculating denominator:
10^decimal_places") and the claimed invariant that the denominator is a
positive power of ten fitting `unsigned int`. -/
theorem C3_denominator_overflow :
    parse_refresh_rate_string "0.0000000001".toList =
      some (some ⟨1, 1410065408⟩) ∧
    (∀ k : Nat, 10 ^ k ≠ 1410065408) ∧
    1410065408 = 10 ^ 10 % 2 ^ 32 := by
  refine ⟨by decide, ?_, by decide⟩
  intro k
  have h9 : (10 : Nat) ^ 9 = 1000000000 := by norm_num
  have h10 : (10 : Nat) ^ 10 = 10000000000 := by norm_num
  rcases le_or_lt k 9 with hk | hk
  · have hle : (10 : Nat) ^ k ≤ 10 ^ 9 :=
      Nat.pow_le_pow_right (by norm_num) hk
    omega
  · have hle : (10 : Nat) ^ 10 ≤ 10 ^ k :=
      Nat.pow_le_pow_right (by norm_num) hk
    omega

/-- C4: an attempt of the apply operation scheduled by
`configure_display(config)` requests stop of the retry loop if and only
if `applySettings` returns a result other than
`ApiTemporarilyUnavailable`; in a run where apply reports
`ApiTemporarilyUnavailable` three times and then `Ok`, exactly four
attempts execute, with exactly one terminal stop request and no further
scheduled attempts. -/
theorem C4_configure_retry_policy :
    (∀ r : ApplyResult,
      configure_display_attempt r = true ↔
        r ≠ ApplyResult.ApiTemporarilyUnavailable) ∧
    attemptTrace configure_display_attempt
        [ApplyResult.ApiTemporarilyUnavailable,
         ApplyResult.ApiTemporarilyUnavailable,
         ApplyResult.ApiTemporarilyUnavailable, ApplyResult.Ok] =
      [false, false, false, true] ∧
    (attemptTrace configure_display_attempt
        [ApplyResult.ApiTemporarilyUnavailable,
         ApplyResult.ApiTemporarilyUnavailable,
         ApplyResult.ApiTemporarilyUnavailable,
         ApplyResult.Ok]).length = 4 ∧
    (attemptTrace configure_display_attempt
        [ApplyResult.ApiTemporarilyUnavailable,
         ApplyResult.ApiTemporarilyUnavailable,
         ApplyResult.ApiTemporarilyUnavailable,
         ApplyResult.Ok]).count true = 1 := by
  refine ⟨?_, by decide, by decide, by decide⟩
  intro r
  cases r <;> simp [configure_display_attempt]

/-- C5: when a settings manager is live, `revert_configuration`
schedules exactly one unbounded-retry revert with the
try-indefinitely-with-delay option; when the configured revert delay is
strictly positive the scheduler runs in `ScheduledOnly` mode (the first
attempt is not executed immediately in the calling thread) with the
first sleep equal to the configured delay and all later sleeps equal to
the fixed retry interval, while with a zero delay the first attempt runs
immediately and all attempts are separated by the fixed retry interval;
in both cases an attempt requests stop exactly when the underlying
revert reports success. -/
theorem C5_revert_schedule (st : DDData) (h : st.sm_instance = some ()) :
    revert_configuration st =
      [Op.scheduleRevert .try_indefinitely_with_delay
        (revert_scheduler_options .try_indefinitely_with_delay
          st.config_revert_delay)] ∧
    (0 < st.config_revert_delay →
      revert_scheduler_options .try_indefinitely_with_delay
          st.config_revert_delay =
        { m_sleep_durations := [st.config_revert_delay,
            DEFAULT_RETRY_INTERVAL]
          m_execution := .ScheduledOnly } ∧
      firstAttemptDelay (revert_scheduler_options
          .try_indefinitely_with_delay st.config_revert_delay) =
        st.config_revert_delay) ∧
    (st.config_revert_delay = 0 →
      revert_scheduler_options .try_indefinitely_with_delay
          st.config_revert_delay =
        { m_sleep_durations := [DEFAULT_RETRY_INTERVAL]
          m_execution := .Immediate } ∧
      firstAttemptDelay (revert_scheduler_options
          .try_indefinitely_with_delay st.config_revert_delay) = 0) ∧
    subsequentInterval (revert_scheduler_options
        .try_indefinitely_with_delay st.config_revert_delay) =
      DEFAULT_RETRY_INTERVAL ∧
    (∀ success : Bool,
      revert_attempt .try_indefinitely_with_delay success = success) := by
  refine ⟨?_, ?_, ?_, ?_, ?_⟩
  · simp [revert_configuration, revert_configuration_unlocked, h]
  · intro hd
    constructor <;>
      simp [revert_scheduler_options, hd, firstAttemptDelay]
  · intro hd
    constructor <;>
      simp [revert_scheduler_options, hd, firstAttemptDelay]
  · rcases Nat.eq_zero_or_pos st.config_revert_delay with hd | hd <;>
      simp [revert_scheduler_options, hd, subsequentInterval]
  · intro success
    simp [revert_attempt]

/-- C5 (witness): the theorem applied to a concrete live state with a
revert delay of 1000 ms. -/
theorem C5_revert_schedule_witness :
    revert_configuration ⟨1000, some ()⟩ =
      [Op.scheduleRevert .try_indefinitely_with_delay
        (revert_scheduler_options .try_indefinitely_with_delay 1000)] :=
  (C5_revert_schedule ⟨1000, some ()⟩ rfl).1

/-- C6: `init` performs, in order: one try-once revert against any
existing scheduler (and a try-once revert attempt requests stop
regardless of the revert result, so it makes at most one attempt),
recording of the configured revert delay, discarding of the previous
scheduler, and construction of a new settings manager; only if
construction succeeds does it then enumerate devices and schedule a
try-indefinitely revert on the new scheduler; and the shutdown handle's
release performs one best-effort try-once revert and discards the
scheduler. -/
theorem C6_init_sequence (delay : Nat) (st : DDData) :
    (init true delay st).1 =
      revert_configuration_unlocked .try_once st ++
        [Op.setDelay delay, Op.discardScheduler,
         Op.constructManager true, Op.enumerateDevices,
         Op.scheduleRevert .try_indefinitely
           { m_sleep_durations := [DEFAULT_RETRY_INTERVAL]
             m_execution := .Immediate }] ∧
    (init true delay st).2 = ⟨delay, some ()⟩ ∧
    (init false delay st).1 =
      revert_configuration_unlocked .try_once st ++
        [Op.setDelay delay, Op.discardScheduler,
         Op.constructManager false] ∧
    (init false delay st).2 = ⟨delay, none⟩ ∧
    (st.sm_instance = some () →
      revert_configuration_unlocked .try_once st =
        [Op.scheduleRevert .try_once
          (revert_scheduler_options .try_once st.config_revert_delay)]) ∧
    (∀ success : Bool, revert_attempt .try_once success = true) ∧
    deinit st =
      (revert_configuration_unlocked .try_once st,
        ⟨st.config_revert_delay, none⟩) := by
  refine ⟨?_, by simp [init], ?_, by simp [init], ?_, ?_, ?_⟩
  · simp [init, revert_configuration_unlocked, revert_scheduler_options]
  · simp [init]
  · intro h
    simp [revert_configuration_unlocked, h]
  · intro success
    simp [revert_attempt]
  · simp [deinit]

/-- C7: for every user configuration whose device-preparation option is
"disabled" and for every session, `parse_configuration` returns the
`Disabled` outcome regardless of every other field: the
device-preparation check short-circuits before any other derivation
runs. -/
theorem C7_device_prep_disabled (vc : video_t) (s : launch_session_t)
    (h : vc.dd.configuration_option = .disabled) :
    parse_configuration vc s = .configuration_disabled_tag := by
  simp [parse_configuration, parse_device_prep_option, h]

/-- C7 (witness): the theorem applied to a configuration whose manual
resolution and refresh-rate strings are malformed and whose modes are
"manual" — the result is still `Disabled`, not `ParseFailed`. -/
theorem C7_device_prep_disabled_witness :
    parse_configuration
      { dd := { configuration_option := .disabled
                resolution_option := .manual
                manual_resolution := "abc".toList
                refresh_rate_option := .manual
                manual_refresh_rate := "not-a-number".toList
                hdr_option := .automatic
                config_revert_delay := 3000 }
        output_name := "DeviceId".toList }
      { enable_sops := true, width := -5, height := -5, fps := -1,
        enable_hdr := true } = .configuration_disabled_tag :=
  C7_device_prep_disabled _ _ rfl

/-- C8: the session-level `configure_display` takes no action when
`parse_configuration` returns `ParseFailed` (it neither schedules an
apply nor a revert, leaving the orchestrator state and the active
display configuration unchanged), delegates to `revert_configuration` on
the `Disabled` outcome, and delegates to the configuration-level
`configure_display` on a `Configured` outcome. -/
theorem C8_configure_dispatch (vc : video_t) (s : launch_session_t)
    (st : DDData) :
    (parse_configuration vc s = .failed_to_parse_tag →
      configure_display vc s st = []) ∧
    (parse_configuration vc s = .configuration_disabled_tag →
      configure_display vc s st = revert_configuration st) ∧
    (∀ c, parse_configuration vc s = .configured c →
      configure_display vc s st = configure_display_config c st) := by
  refine ⟨fun h => ?_, fun h => ?_, fun c h => ?_⟩ <;>
    simp [configure_display, h]

/-- C8 (witness): with a malformed manual refresh-rate string the parse
fails and `configure_display` schedules nothing, even though a settings
manager is live. -/
theorem C8_configure_dispatch_witness :
    configure_display
      { dd := { configuration_option := .verify_only
                resolution_option := .disabled
                manual_resolution := []
                refresh_rate_option := .manual
                manual_refresh_rate := "abc".toList
                hdr_option := .disabled
                config_revert_delay := 0 }
        output_name := [] }
      { enable_sops := true, width := 1920, height := 1080, fps := 60,
        enable_hdr := false }
      ⟨0, some ()⟩ = [] :=
  (C8_configure_dispatch _ _ _).1 (by decide)

/-- C9: `parse_resolution_string` returns the unset value for input
that is empty after whitespace trimming, returns `Resolution{w, h}` for
every input matching `^\d+x\d+$` whose two digit groups each fit
`unsigned int`, and returns a parse error both for every input that is
non-empty after trimming and fails the pattern and for every matching
input in which either digit group exceeds the `unsigned int` range. -/
theorem C9_parse_resolution (input : List Char) :
    (trim input = [] → parse_resolution_string input = some none) ∧
    (∀ d1 d2, resPattern (trim input) d1 d2 →
      digitsVal d1 ≤ uintMax → digitsVal d2 ≤ uintMax →
      parse_resolution_string input =
        some (some ⟨digitsVal d1, digitsVal d2⟩)) ∧
    (trim input ≠ [] → (∀ d1 d2, ¬ resPattern (trim input) d1 d2) →
      parse_resolution_string input = none) ∧
    (∀ d1 d2, resPattern (trim input) d1 d2 →
      (uintMax < digitsVal d1 ∨ uintMax < digitsVal d2) →
      parse_resolution_string input = none) := by
  refine ⟨?_, ?_, ?_, ?_⟩
  · intro h
    simp [parse_resolution_string, resolutionMatch, h]
  · rintro d1 d2 ⟨hs, h1, h2, hd1, hd2⟩ hw hh
    have hmatch : resolutionMatch (trim input) = some (d1, d2) := by
      rw [hs]
      exact resolutionMatch_of_pattern d1 d2 h1 h2 hd1 hd2
    simp only [parse_resolution_string, hmatch, stou]
    rw [if_pos hw, if_pos hh]
  · intro hne hnp
    cases hm : resolutionMatch (trim input) with
    | none => simp [parse_resolution_string, hm, hne]
    | some pr =>
      obtain ⟨d1, d2⟩ := pr
      exact absurd (resolutionMatch_some hm) (hnp d1 d2)
  · rintro d1 d2 ⟨hs, h1, h2, hd1, hd2⟩ hover
    have hmatch : resolutionMatch (trim input) = some (d1, d2) := by
      rw [hs]
      exact resolutionMatch_of_pattern d1 d2 h1 h2 hd1 hd2
    rcases hover with hw | hh
    · have h1n : stou d1 = none := by
        simp only [stou, if_neg (by omega : ¬ digitsVal d1 ≤ uintMax)]
      simp [parse_resolution_string, hmatch, h1n]
    · have h2n : stou d2 = none := by
        simp only [stou, if_neg (by omega : ¬ digitsVal d2 ≤ uintMax)]
      cases hs1 : stou d1 <;>
        simp [parse_resolution_string, hmatch, hs1, h2n]

/-- C9 (witness): the theorem applied to the concrete inputs
"1920x1080" (a full match whose groups fit) and "   " (blank after
trimming). -/
theorem C9_parse_resolution_witness :
    parse_resolution_string "1920x1080".toList =
      some (some ⟨digitsVal "1920".toList, digitsVal "1080".toList⟩) ∧
    parse_resolution_string "   ".toList = some none :=
  ⟨(C9_parse_resolution "1920x1080".toList).2.1 "1920".toList
      "1080".toList ⟨by decide, by decide, by decide, by decide, by decide⟩
      (by decide) (by decide),
   (C9_parse_resolution "   ".toList).1 (by decide)⟩

theorem refresh_option_preserves_resolution (vc : video_t)
    (s : launch_session_t) (cfg c2 : SingleDisplayConfiguration)
    (h : parse_refresh_rate_option vc s cfg = some c2) :
    c2.m_resolution = cfg.m_resolution := by
  unfold parse_refresh_rate_option at h
  split at h
  · split at h
    · injection h with h
      rw [← h]
    · exact absurd h (by simp)
  · split at h
    · exact absurd h (by simp)
    · exact absurd h (by simp)
    · injection h with h
      rw [← h]
  · injection h with h
    rw [← h]

/-- C10 (counterexample): the claim's two universal halves both fail as
stated: with device preparation "disabled" and refresh-rate mode
"manual" with an empty manual string, `parse_configuration` returns
`Disabled` (the refresh-rate string is never parsed), not `ParseFailed`;
and with resolution mode "manual", sops false and an (empty) manual
refresh-rate string alongside it, the derivation does not succeed but
returns `ParseFailed`. -/
theorem C10_counterexample :
    parse_configuration
      { dd := { configuration_option := .disabled
                resolution_option := .disabled
                manual_resolution := []
                refresh_rate_option := .manual
                manual_refresh_rate := []
                hdr_option := .disabled
                config_revert_delay := 0 }
        output_name := [] }
      { enable_sops := false, width := 1920, height := 1080, fps := 60,
        enable_hdr := false } = .configuration_disabled_tag ∧
    parse_configuration
      { dd := { configuration_option := .verify_only
                resolution_option := .manual
                manual_resolution := "1920x1080".toList
                refresh_rate_option := .manual
                manual_refresh_rate := []
                hdr_option := .disabled
                config_revert_delay := 0 }
        output_name := [] }
      { enable_sops := false, width := 1920, height := 1080, fps := 60,
        enable_hdr := false } = .failed_to_parse_tag := by
  refine ⟨by decide, by decide⟩

/-- C10 (amended): the manual refresh-rate path, unlike the manual
resolution path, is not gated on the session's sops flag: with
refresh-rate mode "manual" the refresh-rate derivation ignores the
session entirely, and — provided device preparation is not "disabled" —
an empty or malformed manual refresh-rate string makes
`parse_configuration` return `ParseFailed` even when sops is false;
whereas with resolution mode "manual" and sops false the resolution
string is never parsed (the resolution derivation succeeds leaving the
configuration unchanged), and — provided device preparation is not
"disabled" and the refresh-rate derivation succeeds — the overall
derivation succeeds with resolution left unset. -/
theorem C10_sops_gating_asymmetry (vc : video_t)
    (s : launch_session_t) :
    (vc.dd.refresh_rate_option = .manual →
      ∀ s2 : launch_session_t, ∀ cfg,
        parse_refresh_rate_option vc s cfg =
          parse_refresh_rate_option vc s2 cfg) ∧
    (vc.dd.configuration_option ≠ .disabled →
      vc.dd.refresh_rate_option = .manual →
      (parse_refresh_rate_string vc.dd.manual_refresh_rate = none ∨
        parse_refresh_rate_string vc.dd.manual_refresh_rate =
          some none) →
      parse_configuration vc s = .failed_to_parse_tag) ∧
    (vc.dd.resolution_option = .manual → s.enable_sops = false →
      ∀ cfg, parse_resolution_option vc s cfg = some cfg) ∧
    (∀ dp c2, vc.dd.resolution_option = .manual →
      s.enable_sops = false →
      parse_device_prep_option vc = some dp →
      parse_refresh_rate_option vc s (initial_config vc s dp) =
        some c2 →
      parse_configuration vc s = .configured c2 ∧
        c2.m_resolution = none) := by
  refine ⟨?_, ?_, ?_, ?_⟩
  · intro h s2 cfg
    simp [parse_refresh_rate_option, h]
  · intro hprep hmanual hbad
    obtain ⟨dp, hdp⟩ : ∃ dp, parse_device_prep_option vc = some dp := by
      unfold parse_device_prep_option
      cases h : vc.dd.configuration_option
      · exact absurd h hprep
      all_goals exact ⟨_, rfl⟩
    cases hro : parse_resolution_option vc s
        (initial_config vc s dp) with
    | none => simp [parse_configuration, hdp, hro]
    | some c1 =>
      have hrr : parse_refresh_rate_option vc s c1 = none := by
        rcases hbad with hb | hb <;>
          simp [parse_refresh_rate_option, hmanual, hb]
      simp [parse_configuration, hdp, hro, hrr]
  · intro hres hsops cfg
    simp [parse_resolution_option, hres, hsops]
  · intro dp c2 hres hsops hdp hrr
    have h1 : parse_resolution_option vc s (initial_config vc s dp) =
        some (initial_config vc s dp) := by
      simp [parse_resolution_option, hres, hsops]
    refine ⟨by simp [parse_configuration, hdp, h1, hrr], ?_⟩
    rw [refresh_option_preserves_resolution vc s _ c2 hrr]
    rfl

/-- C10 (witness): the amended theorem applied to concrete inputs —
with sops false, a malformed manual refresh-rate string still makes the
parse fail, while a manual resolution string is ignored and the
derivation succeeds with resolution unset. -/
theorem C10_sops_gating_asymmetry_witness :
    parse_configuration
      { dd := { configuration_option := .verify_only
                resolution_option := .disabled
                manual_resolution := []
                refresh_rate_option := .manual
                manual_refresh_rate := "abc".toList
                hdr_option := .disabled
                config_revert_delay := 0 }
        output_name := [] }
      { enable_sops := false, width := 1920, height := 1080, fps := 60,
        enable_hdr := false } = .failed_to_parse_tag ∧
    (parse_configuration
      { dd := { configuration_option := .verify_only
                resolution_option := .manual
                manual_resolution := "1920x1080".toList
                refresh_rate_option := .disabled
                manual_refresh_rate := []
                hdr_option := .disabled
                config_revert_delay := 0 }
        output_name := [] }
      { enable_sops := false, width := 1920, height := 1080, fps := 60,
        enable_hdr := false } =
      .configured ⟨[], .VerifyOnly, none, none, none⟩ ∧
    (⟨[], .VerifyOnly, none, none, none⟩ :
        SingleDisplayConfiguration).m_resolution = none) :=
  ⟨(C10_sops_gating_asymmetry _ _).2.1 (by decide) rfl
      (Or.inl (by decide)),
   (C10_sops_gating_asymmetry _ _).2.2.2 .VerifyOnly
      ⟨[], .VerifyOnly, none, none, none⟩ rfl rfl rfl (by decide)⟩

end DisplayDevice
